import Mathlib

/-
Verification development for the `nirfsg` Python package (a ctypes binding to the
NI-RFSG signal-generator driver).  The definitions below are a shallow embedding of
the repository's source files:

  - `src/nirfsg/c_api.py`            : native call surface, error translation
  - `src/nirfsg/attributemonger.py`  : attribute registry, table parsing, dispatch
  - `src/nirfsg/common.py`           : facade base classes

The closed vendor driver is modelled as an oracle (`NativeDriver`) respectively as a
key-value store (`Store`) that records on a set the native value it receives and
returns the recorded value on a get.  Each definition cites the source lines it
embeds.
-/

namespace NiRFSG

/- ctypes scalar classes used by the binding.  c_api.py lines 69-83 define the VISA
type aliases; several aliases denote the same ctypes class (`ViStatus = ViInt32 =
c_int32`, `ViString = ViRsrc = ViConstString = c_char_p`, `ViSession = ViAttr =
c_uint32`), and dictionary keys compare by that class, so the model's carrier is the
underlying ctypes class. -/
inductive CTy
  | c_double
  | c_char_p
  | c_uint16
  | c_uint32
  | c_int32
  | c_int64
deriving DecidableEq

def ViStatus : CTy := CTy.c_int32

def ViRsrc : CTy := CTy.c_char_p

def ViBoolean : CTy := CTy.c_uint16

def ViSession : CTy := CTy.c_uint32

def ViInt32 : CTy := CTy.c_int32

def ViInt64 : CTy := CTy.c_int64

def ViAttr : CTy := CTy.c_uint32

def ViReal64 : CTy := CTy.c_double

def ViString : CTy := CTy.c_char_p

def ViConstString : CTy := CTy.c_char_p

/- The ten typed attribute accessor wrappers of c_api.py (lines 280-504). -/
inductive PyWrapperFn
  | get_attribute_float
  | get_attribute_string
  | get_attribute_bool
  | get_attribute_int32
  | get_attribute_int64
  | set_attribute_float
  | set_attribute_string
  | set_attribute_bool
  | set_attribute_int32
  | set_attribute_int64
deriving DecidableEq

/- The native entry-point name each wrapper's `@c_api(...)` decorator binds to the
wrapper's `.call` slot (first decorator argument at c_api.py lines 281-283, 306-308,
333-334, 356, 377, 412-414, 433-436, 455-456, 474, 491). -/
def boundEntry : PyWrapperFn → String
  | PyWrapperFn.get_attribute_float => "niRFSG_GetAttributeViReal64"
  | PyWrapperFn.get_attribute_string => "niRFSG_GetAttributeViString"
  | PyWrapperFn.get_attribute_bool => "niRFSG_GetAttributeViBoolean"
  | PyWrapperFn.get_attribute_int32 => "niRFSG_GetAttributeViInt32"
  | PyWrapperFn.get_attribute_int64 => "niRFSG_GetAttributeViInt64"
  | PyWrapperFn.set_attribute_float => "niRFSG_SetAttributeViReal64"
  | PyWrapperFn.set_attribute_string => "niRFSG_SetAttributeViString"
  | PyWrapperFn.set_attribute_bool => "niRFSG_SetAttributeViBoolean"
  | PyWrapperFn.set_attribute_int32 => "niRFSG_SetAttributeViInt32"
  | PyWrapperFn.set_attribute_int64 => "niRFSG_SetAttributeViInt64"

/- Which wrapper's `.call` slot each wrapper's body invokes.  Every body invokes its
own slot except `set_attribute_int64`, whose body (c_api.py line 503) reads
`err = set_attribute_int32.call(instrument_handle, channel, viattr, value)`. -/
def bodyCallTarget : PyWrapperFn → PyWrapperFn
  | PyWrapperFn.set_attribute_int64 => PyWrapperFn.set_attribute_int32
  | f => f

/- The native entry point actually reached when a wrapper runs. -/
def invokedEntry (f : PyWrapperFn) : String := boundEntry (bodyCallTarget f)

/- GETLU, c_api.py lines 507-513: dict from ctypes class to getter wrapper.
A ctypes class that is not a key raises KeyError, modelled by `none`. -/
def GETLU : CTy → Option PyWrapperFn
  | CTy.c_double => some PyWrapperFn.get_attribute_float
  | CTy.c_char_p => some PyWrapperFn.get_attribute_string
  | CTy.c_uint16 => some PyWrapperFn.get_attribute_bool
  | CTy.c_int32 => some PyWrapperFn.get_attribute_int32
  | CTy.c_int64 => some PyWrapperFn.get_attribute_int64
  | CTy.c_uint32 => none

/- SETLU, c_api.py lines 514-520: dict from ctypes class to setter wrapper. -/
def SETLU : CTy → Option PyWrapperFn
  | CTy.c_double => some PyWrapperFn.set_attribute_float
  | CTy.c_char_p => some PyWrapperFn.set_attribute_string
  | CTy.c_uint16 => some PyWrapperFn.set_attribute_bool
  | CTy.c_int32 => some PyWrapperFn.set_attribute_int32
  | CTy.c_int64 => some PyWrapperFn.set_attribute_int64
  | CTy.c_uint32 => none

/- Python runtime values crossing the wrapper boundary. -/
inductive EVal
  | i (n : ℤ)
  | s (t : String)
deriving DecidableEq

inductive PyVal
  | noneV
  | int (n : ℤ)
  | float (q : ℚ)
  | str (s : String)
  | bool (b : Bool)
  | timedelta (days : ℚ)
  | enumMember (name : String) (val : EVal)
deriving DecidableEq

/- Python truthiness, as used by `if err:` and `bool(value)`. -/
def pyTruthy : PyVal → Bool
  | PyVal.noneV => false
  | PyVal.int n => n != 0
  | PyVal.float q => q != 0
  | PyVal.str s => s != ""
  | PyVal.bool b => b
  | PyVal.timedelta d => d != 0
  | PyVal.enumMember _ _ => true

/- The exception kinds the embedded code can raise. -/
inductive PyExc
  | niRFSGError (msg : String)
  | typeError
  | valueError
  | indexError
  | keyError
  | attributeError
deriving DecidableEq

/- Oracle for the closed vendor driver: the status/outputs each native entry point
returns for given arguments.  `getErrorRes handle code` models
`niRFSG_GetError(handle, &code, len, buf)` yielding (status, decoded message). -/
structure NativeDriver where
  getErrorRes : ℕ → ℤ → ℤ × String
  initRes : String → Bool → Bool → ℤ × ℕ
  initWithOptionsRes : String → Bool → Bool → String → ℤ × ℕ
  revisionRes : ℕ → String × String × ℤ

/- get_error, c_api.py lines 96-118: query the driver for the message text of a
status code; raise `niRFSGError(f"{err}")` if the query itself fails. -/
def get_error (d : NativeDriver) (instrument_handle : ℕ) (error : ℤ) :
    Except PyExc String :=
  let r := d.getErrorRes instrument_handle error
  if r.1 ≠ 0 then Except.error (PyExc.niRFSGError (toString r.1))
  else Except.ok r.2

/- Return shape produced by the check_error decorator: `None` for zero wrapped
outputs, the bare value for one, the list for several. -/
inductive CheckRet
  | noneV
  | single (v : PyVal)
  | multi (vs : List PyVal)
deriving DecidableEq

/- check_error, c_api.py lines 121-139.  The wrapped function returns a Python list
whose last element is the native status; `args[0]` (here `instrument_handle`) is the
session handle the decode call reuses.  `result.pop()` on an empty list would raise
IndexError; `ViStatus(error)` inside get_error requires an int. -/
def check_error (d : NativeDriver) (instrument_handle : ℕ) (result : List PyVal) :
    Except PyExc CheckRet :=
  match result.getLast? with
  | none => Except.error PyExc.indexError
  | some errv =>
    let rest := result.dropLast
    if pyTruthy errv then
      match errv with
      | PyVal.int err =>
        match get_error d instrument_handle err with
        | Except.ok msg => Except.error (PyExc.niRFSGError msg)
        | Except.error e => Except.error e
      | _ => Except.error PyExc.typeError
    else
      match rest with
      | [] => Except.ok CheckRet.noneV
      | [v] => Except.ok (CheckRet.single v)
      | vs => Except.ok (CheckRet.multi vs)

/- init, c_api.py lines 142-165: on a non-zero status the decode call is issued with
`ViSession(0)`, and the decoded text is raised as niRFSGError. -/
def init (d : NativeDriver) (resource_name : String) (query_id : Bool)
    (reset_device : Bool) : Except PyExc ℕ :=
  let r := d.initRes resource_name query_id reset_device
  if r.1 ≠ 0 then
    match get_error d 0 r.1 with
    | Except.ok msg => Except.error (PyExc.niRFSGError msg)
    | Except.error e => Except.error e
  else Except.ok r.2

/- init_withoptions, c_api.py lines 168-200: same error path as init, with the
options string forwarded to the native call. -/
def init_withoptions (d : NativeDriver) (resource_name : String) (query_id : Bool)
    (reset_device : Bool) (options : String) : Except PyExc ℕ :=
  let r := d.initWithOptionsRes resource_name query_id reset_device options
  if r.1 ≠ 0 then
    match get_error d 0 r.1 with
    | Except.ok msg => Except.error (PyExc.niRFSGError msg)
    | Except.error e => Except.error e
  else Except.ok r.2

/- get_revisions, c_api.py lines 560-579: a check_error-wrapped call producing two
output strings followed by the status. -/
def get_revisions (d : NativeDriver) (instrument_handle : ℕ) :
    Except PyExc CheckRet :=
  let r := d.revisionRes instrument_handle
  check_error d instrument_handle [PyVal.str r.1, PyVal.str r.2.1, PyVal.int r.2.2]

/- A concrete driver oracle used to exercise the wrappers on explicit inputs. -/
def testDriver : NativeDriver where
  getErrorRes := fun h c => (0, "code " ++ toString h ++ ":" ++ toString c)
  initRes := fun _ _ _ => (-1, 0)
  initWithOptionsRes := fun _ _ _ _ => (-2, 0)
  revisionRes := fun _ => ("driver rev", "fw rev", 0)

/- Attribute, attributemonger.py lines 10-33.  `_vi` and `_channel` start as None
(lines 30-31) and are assigned by AttributeMonger.__call__.  The `_get`/`_set`
slots are determined by `c_type` through GETLU/SETLU (lines 32-33) and are not
duplicated here; a `c_type` missing from those dicts raises KeyError, which the
row parser below reproduces. -/
structure Attribute where
  c_api_name : String
  id : ℤ
  c_type : CTy
  subsystem : String
  name : String
  supported_models : List String
  defined_values : Option (List (String × EVal))
  vi : Option ℕ := none
  channel : Option String := none
deriving DecidableEq

/- The vendor driver's attribute state, modelled (as claim C5 directs) as a store
that records on a set the value the native setter receives, keyed by
(session, channel, attribute id), and returns the recorded value on a get. -/
def Store := Option ℕ → Option String → ℤ → PyVal

def Store.set (st : Store) (vi : Option ℕ) (ch : Option String) (attrid : ℤ)
    (v : PyVal) : Store :=
  fun vi2 ch2 id2 => if vi2 = vi ∧ ch2 = ch ∧ id2 = attrid then v else st vi2 ch2 id2

/- Python equality between a native scalar and an Enum member's value, as used by
`self.defined_values(value)` (member lookup by value). -/
def evalMatches : PyVal → EVal → Bool
  | PyVal.int n, EVal.i m => n == m
  | PyVal.str s, EVal.s t => s == t
  | PyVal.float q, EVal.i m => q == (m : ℚ)
  | PyVal.bool b, EVal.i m => (if b then (1 : ℤ) else 0) == m
  | _, _ => false

def evalToPyVal : EVal → PyVal
  | EVal.i n => PyVal.int n
  | EVal.s t => PyVal.str t

def CAL_INTERVAL_NAME : String :=
  "NIRFSG_ATTR_EXTERNAL_CALIBRATION_RECOMMENDED_INTERVAL"

def THERMAL_NAME : String := "NIRFSG_ATTR_AUTOMATIC_THERMAL_CORRECTION"

/- Numeric coercion used by `timedelta(days=value / 12 * 365)`; a non-numeric value
would raise TypeError inside timedelta. -/
def pyNum : PyVal → Option ℚ
  | PyVal.int n => some (n : ℚ)
  | PyVal.float q => some q
  | PyVal.bool b => some (if b then 1 else 0)
  | _ => none

/- The `value` property getter, attributemonger.py lines 35-47.  The branches are an
elif chain: enumerated translation first, then ViBoolean coercion, then the two
reserved c_api names.  `self.defined_values(value)` returns the first member whose
value equals the native value, or raises ValueError. -/
def Attribute.value_get (a : Attribute) (st : Store) : Except PyExc PyVal :=
  let v := st a.vi a.channel a.id
  match a.defined_values with
  | some dv =>
    match dv.find? (fun p => evalMatches v p.2) with
    | some p => Except.ok (PyVal.enumMember p.1 p.2)
    | none => Except.error PyExc.valueError
  | none =>
    if a.c_type = ViBoolean then Except.ok (PyVal.bool (pyTruthy v))
    else if a.c_api_name = CAL_INTERVAL_NAME then
      match pyNum v with
      | some q => Except.ok (PyVal.timedelta (q / 12 * 365))
      | none => Except.error PyExc.typeError
    else if a.c_api_name = THERMAL_NAME then Except.ok (PyVal.bool (pyTruthy v))
    else Except.ok v

/- The `value` property setter, attributemonger.py lines 49-55.  For an enumerated
attribute, `getattr(self.defined_values, new_value, new_value)` resolves a symbolic
name to its member (TypeError when the name is not a string), an unknown name
passes through unchanged, and a resolved member is replaced by its `.value`; the
translated value is then handed to the native setter, which records it. -/
def Attribute.value_set (a : Attribute) (st : Store) (new_value : PyVal) :
    Except PyExc Store :=
  match a.defined_values with
  | some dv =>
    match new_value with
    | PyVal.str s =>
      let nv := match dv.find? (fun p => p.1 == s) with
        | some p => evalToPyVal p.2
        | none => PyVal.str s
      Except.ok (st.set a.vi a.channel a.id nv)
    | _ => Except.error PyExc.typeError
  | none => Except.ok (st.set a.vi a.channel a.id new_value)

/- Executable character-list models of the Python string primitives the source
uses (`in`, split, replace, lower, startswith, int parsing).  They are written by
structural recursion so that concrete runs reduce inside the kernel. -/

/- `leadsWith l pat`: pat is a leading segment of l. -/
def leadsWith : List Char → List Char → Bool
  | _, [] => true
  | [], _ :: _ => false
  | a :: as, b :: bs => (a == b) && leadsWith as bs

/- `occursIn hay pat`: Python `pat in hay` on strings. -/
def occursIn : List Char → List Char → Bool
  | [], pat => pat.isEmpty
  | a :: t, pat => leadsWith (a :: t) pat || occursIn t pat

/- If pat is a leading segment of l, the remainder after it. -/
def stripLead : List Char → List Char → Option (List Char)
  | l, [] => some l
  | [], _ :: _ => none
  | a :: as, b :: bs => if a = b then stripLead as bs else none

/- Python str.split(sep) for a non-empty sep, fuelled for structural recursion;
fuel `l.length` always suffices. -/
def splitOnGo (pat : List Char) : ℕ → List Char → List Char → List (List Char)
  | _, [], acc => [acc.reverse]
  | 0, l, acc => [acc.reverse ++ l]
  | fuel + 1, a :: t, acc =>
    match stripLead (a :: t) pat with
    | some rest => acc.reverse :: splitOnGo pat fuel rest []
    | none => splitOnGo pat fuel t (a :: acc)

def pySplit (s sep : String) : List String :=
  if sep.toList = [] then [s]
  else (splitOnGo sep.toList s.toList.length s.toList []).map List.asString

/- Python str.replace for a non-empty pattern, fuelled likewise. -/
def replaceGo (pat rep : List Char) : ℕ → List Char → List Char
  | _, [] => []
  | 0, l => l
  | fuel + 1, a :: t =>
    match stripLead (a :: t) pat with
    | some rest => rep ++ replaceGo pat rep fuel rest
    | none => a :: replaceGo pat rep fuel t

def pyReplace (s pat rep : String) : String :=
  if pat.toList = [] then s
  else (replaceGo pat.toList rep.toList s.toList.length s.toList).asString

/- Python str.lower restricted to ASCII, which covers the table's constants. -/
def pyLowerChar (c : Char) : Char :=
  if 'A' ≤ c ∧ c ≤ 'Z' then Char.ofNat (c.toNat + 32) else c

def pyLower (s : String) : String := (s.toList.map pyLowerChar).asString

def pyStartsWith (s pre : String) : Bool := leadsWith s.toList pre.toList

def pyIsDigits (l : List Char) : Bool :=
  !l.isEmpty && l.all (fun c => ('0' ≤ c) && (c ≤ '9'))

def natOfDigits (l : List Char) : ℕ :=
  l.foldl (fun n c => 10 * n + (c.toNat - 48)) 0

/- Python str.isdecimal (the table holds only ASCII digits). -/
def pyIsDecimal (s : String) : Bool := pyIsDigits s.toList

/- Python int(s) on a plain optionally-signed digit string; anything else raises
ValueError. -/
def pyInt (s : String) : Except PyExc ℤ :=
  match s.toList with
  | '-' :: ds =>
    if pyIsDigits ds then Except.ok (-(natOfDigits ds : ℤ))
    else Except.error PyExc.valueError
  | '+' :: ds =>
    if pyIsDigits ds then Except.ok (natOfDigits ds : ℤ)
    else Except.error PyExc.valueError
  | ds =>
    if pyIsDigits ds then Except.ok (natOfDigits ds : ℤ)
    else Except.error PyExc.valueError

/- Python substring test `needle in hay`. -/
def str_contains (hay needle : String) : Bool := occursIn hay.toList needle.toList

/- SupportedModels.__contains__, attributemonger.py lines 61-78: `value in models`
is True when the list holds the literal entry "all", or when some entry occurs as a
substring of `value` (the connected model string). -/
def supportsContains (models : List String) (value : String) : Bool :=
  if models.contains "all" then true
  else models.any (fun m => str_contains value m)

def bindAttr (a : Attribute) (hdl : ℕ) (ch : String) : Attribute :=
  { a with vi := some hdl, channel := some ch }

/- The loop condition of AttributeMonger.__call__ line 152:
`model in attr.supported_models and subsystem == attr.subsystem`. -/
def mongerMatch (model sub : String) (a : Attribute) : Bool :=
  supportsContains a.supported_models model && (sub == a.subsystem)

/- AttributeMonger.__call__, attributemonger.py lines 146-156.  `model` stands for
the string the driver returns for
`get_attribute_string(instrument_handle, "", NIRFSG_ATTR_INSTRUMENT_MODEL)`.
The loop assigns `attr._vi`/`attr._channel` on the registry-held Attribute objects
of every matching entry, collects those same objects, and returns
`copy.deepcopy(attrs)`.  The result is (registry after the call, returned dict);
the registry is an insertion-ordered name/Attribute association list. -/
def monger_call (registry : List (String × Attribute)) (hdl : ℕ) (model : String)
    (subsystem : String) (channel : String) :
    List (String × Attribute) × List (String × Attribute) :=
  (registry.map (fun p =>
      if mongerMatch model subsystem p.2 then (p.1, bindAttr p.2 hdl channel) else p),
   (registry.filter (fun p => mongerMatch model subsystem p.2)).map
     (fun p => (p.1, bindAttr p.2 hdl channel)))

/- Concrete inputs for the registry-lookup claims. -/
def freqAttr : Attribute :=
  { c_api_name := "NIRFSG_ATTR_FREQUENCY", id := 1250001, c_type := ViReal64,
    subsystem := "channel", name := "frequency", supported_models := ["all"],
    defined_values := none }

def registryA : List (String × Attribute) := [("frequency", freqAttr)]

def powerAttr : Attribute :=
  { c_api_name := "NIRFSG_ATTR_POWER_LEVEL", id := 1250002, c_type := ViReal64,
    subsystem := "channel", name := "power", supported_models := ["565"],
    defined_values := none }

def registryB : List (String × Attribute) := [("power", powerAttr)]

/- Concrete inputs for the dispatch claims. -/
def modeAttr : Attribute :=
  { c_api_name := "NIRFSG_ATTR_ANALOG_MODULATION_TYPE", id := 1250451,
    c_type := ViInt32, subsystem := "analog_modulation", name := "mode",
    supported_models := ["all"],
    defined_values := some
      [("none", EVal.i 0), ("am", EVal.i 1), ("fm", EVal.i 2), ("pm", EVal.i 3)] }

def zeroStore : Store := fun _ _ _ => PyVal.int 0

def oneStore : Store := fun _ _ _ => PyVal.int 1

def calEnumAttr : Attribute :=
  { c_api_name := CAL_INTERVAL_NAME, id := 1150230, c_type := ViInt32,
    subsystem := "external_cal", name := "cal interval",
    supported_models := ["all"], defined_values := some [("foo", EVal.i 1)] }

def calAttr : Attribute :=
  { c_api_name := CAL_INTERVAL_NAME, id := 1150230, c_type := ViInt32,
    subsystem := "external_cal", name := "cal interval",
    supported_models := ["all"], defined_values := none }

def thermalAttr : Attribute :=
  { c_api_name := THERMAL_NAME, id := 1150229, c_type := ViInt32,
    subsystem := "model", name := "thermal correction",
    supported_models := ["all"], defined_values := none }

def isTimedeltaB : PyVal → Bool
  | PyVal.timedelta _ => true
  | _ => false

/- Table-row parsing, AttributeMonger._readtable, attributemonger.py lines 111-144.
One CSV line is represented by its comma-split token list. -/

/- Python indexing tokens[i]; out of range raises IndexError. -/
def tget (l : List String) (i : ℕ) : Except PyExc String :=
  match l.get? i with
  | some s => Except.ok s
  | none => Except.error PyExc.indexError

/- `getattr(c_api, tokens[2])`, restricted to the VISA type aliases the table can
name; an unknown name raises (Python would raise AttributeError for a name absent
from the module, and any module attribute that is not a GETLU key would raise
KeyError at Attribute construction, modelled below). -/
def ctypeOf : String → Except PyExc CTy
  | "ViReal64" => Except.ok ViReal64
  | "ViString" => Except.ok ViString
  | "ViConstString" => Except.ok ViConstString
  | "ViRsrc" => Except.ok ViRsrc
  | "ViBoolean" => Except.ok ViBoolean
  | "ViInt32" => Except.ok ViInt32
  | "ViStatus" => Except.ok ViStatus
  | "ViInt64" => Except.ok ViInt64
  | "ViSession" => Except.ok ViSession
  | "ViAttr" => Except.ok ViAttr
  | _ => Except.error PyExc.attributeError

/- Elements at stride 2 of a list (Python extended slice with step 2). -/
def everyOther : List String → List String
  | [] => []
  | [a] => [a]
  | a :: _ :: rest => a :: everyOther rest

/- Python slice l[start : stop : 2] (slicing clamps out-of-range bounds). -/
def pySlice2 (l : List String) (start stop : ℕ) : List String :=
  everyOther ((l.take stop).drop start)

/- `cn.split("_VAL_")[-1].replace("_", " ").replace(" STR", "").lower()`,
attributemonger.py lines 133-138. -/
def derive_name (cn : String) : String :=
  pyLower (pyReplace (pyReplace ((pySplit cn "_VAL_").getLastD "") "_" " ") " STR" "")

/- Modelled from the spec: the symbolic-name derivation exactly as stated by the
claim (strip the fixed prefix through the separator, replace underscores with
spaces, lower-case) — with no removal of " STR".  Kept for comparison with
derive_name, which the code implements. -/
def specDeriveName (cn : String) : String :=
  pyLower (pyReplace ((pySplit cn "_VAL_").getLastD "") "_" " ")

/- `int(v) if v.isdecimal() else v`, line 139. -/
def parseVal (v : String) : EVal :=
  if pyIsDecimal v then EVal.i (natOfDigits v.toList : ℤ) else EVal.s v

/- The defined-values pairs built by the zip over the two stride-2 slices,
lines 129-140. -/
def parseDefvals (tokens : List String) (i cnt : ℕ) : List (String × EVal) :=
  (List.zip (pySlice2 tokens i (i + 2 * cnt + 1))
    (pySlice2 tokens (i + 1) (i + 1 + 2 * cnt))).map
    (fun p => (derive_name p.1, parseVal p.2))

/- Second half of the row parse, from `i = i + cnt + 1` (line 125) on:
`cnt = int(tokens[i - 1]) if tokens[i - 1] != "" else 0`, the defvals loop, the
Enum construction (an empty list yields None), and the Attribute construction
whose GETLU/SETLU lookup raises KeyError for a c_type outside the five keys. -/
def parseRowTail (tokens : List String) (t0 t3 : String) (attr_id : ℤ)
    (c_type : CTy) (subsystem : String) (cnt : ℤ) :
    Except PyExc (Option Attribute) :=
  let supmods := (tokens.drop 6).take cnt.toNat
  let i := 7 + cnt.toNat
  match tget tokens (i - 1) with
  | Except.error e => Except.error e
  | Except.ok t =>
    match (if t = "" then Except.ok 0 else pyInt t : Except PyExc ℤ) with
    | Except.error e => Except.error e
    | Except.ok cnt2 =>
      let defvals := if cnt2 > 0 then parseDefvals tokens i cnt2.toNat else []
      match GETLU c_type with
      | none => Except.error PyExc.keyError
      | some _ =>
        Except.ok (some
          { c_api_name := t0, id := attr_id, c_type := c_type,
            subsystem := subsystem, name := t3, supported_models := supmods,
            defined_values := if defvals = [] then none else some defvals })

/- One iteration of the _readtable loop over a token list, lines 114-144:
`Except.ok none` is a skipped row, `Except.ok (some a)` a produced descriptor. -/
def parseRow (tokens : List String) : Except PyExc (Option Attribute) :=
  match tget tokens 0 with
  | Except.error e => Except.error e
  | Except.ok t0 =>
    if pyStartsWith t0 "NIRFSG" = false then Except.ok none
    else
      match tget tokens 3 with
      | Except.error e => Except.error e
      | Except.ok t3 =>
        if t3 = "" then Except.ok none
        else
          match tget tokens 1 with
          | Except.error e => Except.error e
          | Except.ok t1 =>
            match pyInt t1 with
            | Except.error e => Except.error e
            | Except.ok attr_id =>
              match tget tokens 2 with
              | Except.error e => Except.error e
              | Except.ok t2 =>
                match ctypeOf t2 with
                | Except.error e => Except.error e
                | Except.ok c_type =>
                  match tget tokens 4 with
                  | Except.error e => Except.error e
                  | Except.ok subsystem =>
                    match tget tokens 5 with
                    | Except.error e => Except.error e
                    | Except.ok t5 =>
                      match pyInt t5 with
                      | Except.error e => Except.error e
                      | Except.ok cnt =>
                        parseRowTail tokens t0 t3 attr_id c_type subsystem cnt

/- A concrete well-formed table row whose enumeration constant carries a _STR
suffix. -/
def rowCW : List String :=
  ["NIRFSG_ATTR_GENERATION_MODE", "1250321", "ViInt32", "generation mode",
   "model", "1", "all", "1", "NIRFSG_VAL_CW_STR", "1"]

def rowCW_attr : Attribute :=
  { c_api_name := "NIRFSG_ATTR_GENERATION_MODE", id := 1250321, c_type := ViInt32,
    subsystem := "model", name := "generation mode", supported_models := ["all"],
    defined_values := some [("cw", EVal.i 1)] }

/- Facade objects, common.py lines 7-46.  A niBase instance is modelled by its
instance __dict__, the attribute names resolvable through its class (methods,
properties), and its `_attrs` dict of driver attributes.  Python resolves
`obj.item` through the class and instance dict first; the __getattr__ hook
(lines 30-34) runs only when that lookup fails. -/
structure NiObj where
  dict : List (String × PyVal)
  cls : List (String × PyVal)
  attrs : List (String × Attribute)

/- Assignment into an instance __dict__. -/
def dictSet (d : List (String × PyVal)) (k : String) (v : PyVal) :
    List (String × PyVal) :=
  if d.any (fun p => p.1 == k) then
    d.map (fun p => if p.1 == k then (k, v) else p)
  else d ++ [(k, v)]

/- Full attribute read on a facade: normal lookup, then __getattr__
(common.py lines 30-34), whose fallback is `self.__dict__.get(item, None)`. -/
def niBase_getattr (o : NiObj) (st : Store) (item : String) : Except PyExc PyVal :=
  match List.lookup item o.dict with
  | some v => Except.ok v
  | none =>
    match List.lookup item o.cls with
    | some v => Except.ok v
    | none =>
      match List.lookup item o.attrs with
      | some a => a.value_get st
      | none => Except.ok PyVal.noneV

/- __setattr__, common.py lines 36-46 (post-__init__, so `_attrs` exists): a
registered driver attribute name dispatches to the attribute setter, any other
name becomes an ordinary instance attribute. -/
def niBase_setattr (o : NiObj) (st : Store) (item : String) (v : PyVal) :
    Except PyExc (NiObj × Store) :=
  match List.lookup item o.attrs with
  | some a =>
    match a.value_set st v with
    | Except.ok st2 => Except.ok (o, st2)
    | Except.error e => Except.error e
  | none => Except.ok ({ o with dict := dictSet o.dict item v }, st)

/- A concrete facade object for the fallback claims. -/
def demoObj : NiObj :=
  { dict := [("_channel", PyVal.str "")],
    cls := [("initiate", PyVal.noneV)],
    attrs := [("frequency", freqAttr)] }

/-- Claim C1: the scalar-type to native getter/setter mapping is total and pure, and
in particular a set on an int64 attribute invokes the native int64 setter entry
point.  The code violates this: `SETLU` maps `ViInt64` to `set_attribute_int64`,
whose own decorator binds `niRFSG_SetAttributeViInt64`, yet its body calls
`set_attribute_int32.call`, so the entry point actually invoked is
`niRFSG_SetAttributeViInt32`. -/
theorem C1_set_int64_invokes_int32_entry :
    SETLU ViInt64 = some PyWrapperFn.set_attribute_int64 ∧
    invokedEntry PyWrapperFn.set_attribute_int64 = "niRFSG_SetAttributeViInt32" ∧
    boundEntry PyWrapperFn.set_attribute_int64 = "niRFSG_SetAttributeViInt64" ∧
    "niRFSG_SetAttributeViInt32" ≠ "niRFSG_SetAttributeViInt64" := by
  refine ⟨rfl, rfl, rfl, ?_⟩
  decide

theorem getLast?_append_singleton {α : Type} (l : List α) (x : α) :
    (l ++ [x]).getLast? = some x := by
  simp

theorem dropLast_append_singleton {α : Type} (l : List α) (x : α) :
    (l ++ [x]).dropLast = l := by
  simp

theorem check_error_append_err (d : NativeDriver) (hdl : ℕ) (vals : List PyVal)
    (err : ℤ) (hne : err ≠ 0) :
    check_error d hdl (vals ++ [PyVal.int err]) =
      match get_error d hdl err with
      | Except.ok msg => Except.error (PyExc.niRFSGError msg)
      | Except.error e => Except.error e := by
  simp [check_error, pyTruthy, hne]

theorem check_error_append_zero (d : NativeDriver) (hdl : ℕ) (vals : List PyVal) :
    check_error d hdl (vals ++ [PyVal.int 0]) =
      Except.ok (match vals with
        | [] => CheckRet.noneV
        | [v] => CheckRet.single v
        | vs => CheckRet.multi vs) := by
  unfold check_error
  rw [getLast?_append_singleton, dropLast_append_singleton]
  rcases vals with _ | ⟨a, _ | ⟨b, t⟩⟩ <;> rfl

/-- Claim C2: a wrapped native call returns its result on status zero; on a non-zero
status it raises exactly one niRFSGError whose message is decoded by querying the
driver with the same session handle and that status code (and if even the decode
call fails, still exactly one niRFSGError is raised, carrying the decode status);
nothing is retried, downgraded or swallowed. -/
theorem C2_check_error_policy (d : NativeDriver) (hdl : ℕ) (vals : List PyVal)
    (err : ℤ) (hne : err ≠ 0) :
    (check_error d hdl (vals ++ [PyVal.int 0])).isOk = true ∧
    ((d.getErrorRes hdl err).1 = 0 →
      check_error d hdl (vals ++ [PyVal.int err]) =
        Except.error (PyExc.niRFSGError (d.getErrorRes hdl err).2)) ∧
    ((d.getErrorRes hdl err).1 ≠ 0 →
      check_error d hdl (vals ++ [PyVal.int err]) =
        Except.error (PyExc.niRFSGError (toString (d.getErrorRes hdl err).1))) := by
  refine ⟨?_, ?_, ?_⟩
  · rw [check_error_append_zero]
    rcases vals with _ | ⟨a, _ | ⟨b, t⟩⟩ <;> rfl
  · intro hz
    rw [check_error_append_err d hdl vals err hne]
    simp [get_error, hz]
  · intro hz
    rw [check_error_append_err d hdl vals err hne]
    simp [get_error, hz]

theorem C2_check_error_policy_witness :
    (check_error testDriver 3 [PyVal.int 7, PyVal.int 0]).isOk = true ∧
    check_error testDriver 3 [PyVal.int 7, PyVal.int 5] =
      Except.error (PyExc.niRFSGError "code 3:5") := by
  have h := C2_check_error_policy testDriver 3 [PyVal.int 7] 5 (by decide)
  exact ⟨h.1, h.2.1 rfl⟩

/-- Claim C9: on a zero status, a check_error-wrapped call returns None when the
underlying call produced no outputs, the bare value for exactly one output, and the
list of values in order for several; get_revisions (two outputs) returns the
two-element list. -/
theorem C9_check_error_success_arity (d : NativeDriver) (hdl : ℕ)
    (vals : List PyVal) :
    (vals = [] → check_error d hdl (vals ++ [PyVal.int 0]) = Except.ok CheckRet.noneV) ∧
    (∀ v, vals = [v] →
      check_error d hdl (vals ++ [PyVal.int 0]) = Except.ok (CheckRet.single v)) ∧
    (2 ≤ vals.length →
      check_error d hdl (vals ++ [PyVal.int 0]) = Except.ok (CheckRet.multi vals)) ∧
    ((d.revisionRes hdl).2.2 = 0 →
      get_revisions d hdl =
        Except.ok (CheckRet.multi
          [PyVal.str (d.revisionRes hdl).1, PyVal.str (d.revisionRes hdl).2.1])) := by
  refine ⟨?_, ?_, ?_, ?_⟩
  · rintro rfl
    rw [check_error_append_zero]
  · rintro v rfl
    rw [check_error_append_zero]
  · intro hlen
    rw [check_error_append_zero]
    rcases vals with _ | ⟨a, _ | ⟨b, t⟩⟩
    · simp at hlen
    · simp at hlen
    · rfl
  · intro hz
    have : get_revisions d hdl =
        check_error d hdl
          ([PyVal.str (d.revisionRes hdl).1, PyVal.str (d.revisionRes hdl).2.1] ++
            [PyVal.int (d.revisionRes hdl).2.2]) := rfl
    rw [this, hz, check_error_append_zero]

theorem C9_check_error_success_arity_witness :
    (check_error testDriver 2 ([] ++ [PyVal.int 0]) = Except.ok CheckRet.noneV) ∧
    (check_error testDriver 2 ([PyVal.str "a"] ++ [PyVal.int 0]) =
      Except.ok (CheckRet.single (PyVal.str "a"))) ∧
    (check_error testDriver 2 ([PyVal.str "a", PyVal.str "b"] ++ [PyVal.int 0]) =
      Except.ok (CheckRet.multi [PyVal.str "a", PyVal.str "b"])) ∧
    (get_revisions testDriver 2 =
      Except.ok (CheckRet.multi [PyVal.str "driver rev", PyVal.str "fw rev"])) := by
  refine ⟨(C9_check_error_success_arity testDriver 2 []).1 rfl,
    (C9_check_error_success_arity testDriver 2 [PyVal.str "a"]).2.1 _ rfl,
    (C9_check_error_success_arity testDriver 2 [PyVal.str "a", PyVal.str "b"]).2.2.1
      (by decide),
    (C9_check_error_success_arity testDriver 2 []).2.2.2 rfl⟩

/-- Claim C8: when init or init_withoptions gets a non-zero status, the decode call
is issued with the null (zero) session handle, and the decoded message is raised as
a niRFSGError. -/
theorem C8_init_decodes_with_null_handle (d : NativeDriver) (res opts : String)
    (q r : Bool)
    (h1 : (d.initRes res q r).1 ≠ 0)
    (hd1 : (d.getErrorRes 0 (d.initRes res q r).1).1 = 0)
    (h2 : (d.initWithOptionsRes res q r opts).1 ≠ 0)
    (hd2 : (d.getErrorRes 0 (d.initWithOptionsRes res q r opts).1).1 = 0) :
    init d res q r =
      Except.error (PyExc.niRFSGError (d.getErrorRes 0 (d.initRes res q r).1).2) ∧
    init_withoptions d res q r opts =
      Except.error
        (PyExc.niRFSGError
          (d.getErrorRes 0 (d.initWithOptionsRes res q r opts).1).2) := by
  constructor
  · simp [init, get_error, h1, hd1]
  · simp [init_withoptions, get_error, h2, hd2]

theorem C8_init_decodes_with_null_handle_witness :
    init testDriver "PXI1Slot1" true false =
      Except.error (PyExc.niRFSGError "code 0:-1") ∧
    init_withoptions testDriver "PXI1Slot1" true false "Simulate=1" =
      Except.error (PyExc.niRFSGError "code 0:-2") := by
  exact C8_init_decodes_with_null_handle testDriver "PXI1Slot1" "Simulate=1"
    true false (by decide) rfl (by decide) rfl

/-- Claim C3 fails on the code: AttributeMonger.__call__ assigns `_vi`/`_channel`
on the registry-stored descriptors themselves before deep-copying, so the lookup
does mutate the registry, and the returned copies are already bound (session and
channel set), not unbound.  Explicit input: a one-entry registry holding the
frequency attribute, looked up for model "NI PXIe-5654", subsystem "channel",
handle 7. -/
theorem C3_counterexample :
    (monger_call registryA 7 "NI PXIe-5654" "channel" "").1 ≠ registryA ∧
    (monger_call registryA 7 "NI PXIe-5654" "channel" "").1 =
      [("frequency", bindAttr freqAttr 7 "")] ∧
    (monger_call registryA 7 "NI PXIe-5654" "channel" "").2 =
      [("frequency", bindAttr freqAttr 7 "")] ∧
    (bindAttr freqAttr 7 "").vi = some 7 ∧
    freqAttr.vi = none := by
  refine ⟨?_, rfl, rfl, rfl, rfl⟩
  decide

/-- Claim C3 amended: the lookup binds every matching registry-stored descriptor in
place, assigning the requested session handle and channel; the registry's key
sequence and its non-matching descriptors are untouched; and the returned set holds
copies of exactly the matched descriptors, each already bound to the requested
session and channel. -/
theorem C3_lookup_binds_in_place (registry : List (String × Attribute)) (hdl : ℕ)
    (model sub ch : String) :
    ((monger_call registry hdl model sub ch).1.map Prod.fst =
      registry.map Prod.fst) ∧
    (∀ p ∈ registry, mongerMatch model sub p.2 = false →
      p ∈ (monger_call registry hdl model sub ch).1) ∧
    (∀ p ∈ registry, mongerMatch model sub p.2 = true →
      (p.1, bindAttr p.2 hdl ch) ∈ (monger_call registry hdl model sub ch).1) ∧
    (∀ q ∈ (monger_call registry hdl model sub ch).2,
      q.2.vi = some hdl ∧ q.2.channel = some ch ∧
      ∃ p ∈ registry, q = (p.1, bindAttr p.2 hdl ch)) := by
  refine ⟨?_, ?_, ?_, ?_⟩
  · simp only [monger_call, List.map_map]
    apply List.map_congr_left
    intro p _
    by_cases hc : mongerMatch model sub p.2 = true
    · simp [hc]
    · simp [hc]
  · intro p hp hc
    simp only [monger_call]
    exact List.mem_map.mpr ⟨p, hp, by simp [hc]⟩
  · intro p hp hc
    simp only [monger_call]
    exact List.mem_map.mpr ⟨p, hp, by simp [hc]⟩
  · intro q hq
    simp only [monger_call] at hq
    rcases List.mem_map.mp hq with ⟨p, hpf, rfl⟩
    rcases List.mem_filter.mp hpf with ⟨hp, _⟩
    exact ⟨rfl, rfl, p, hp, rfl⟩

theorem C3_lookup_binds_in_place_witness :
    ("frequency", bindAttr freqAttr 7 "") ∈
      (monger_call registryA 7 "NI PXIe-5654" "channel" "").1 := by
  exact (C3_lookup_binds_in_place registryA 7 "NI PXIe-5654" "channel" "").2.2.1
    ("frequency", freqAttr) (by simp [registryA]) (by decide)

theorem supportsContains_iff (models : List String) (value : String) :
    supportsContains models value = true ↔
      (models.contains "all" = true ∨
        ∃ m ∈ models, str_contains value m = true) := by
  by_cases h : models.contains "all" = true
  · simp [supportsContains, h]
  · simp [supportsContains, h, List.any_eq_true]

theorem mongerMatch_iff (model sub : String) (a : Attribute) :
    mongerMatch model sub a = true ↔
      (sub = a.subsystem ∧
        (a.supported_models.contains "all" = true ∨
          ∃ m ∈ a.supported_models, str_contains model m = true)) := by
  rw [mongerMatch, Bool.and_eq_true, supportsContains_iff, beq_iff_eq, and_comm]

/-- Claim C4 fails on the code: SupportedModels.__contains__ is a substring test,
not set membership.  Explicit input: a descriptor whose supported-models list is
["565"] is returned for connected model "NI PXIe-5654" even though that list
contains neither "NI PXIe-5654" nor "all". -/
theorem C4_counterexample :
    (monger_call registryB 3 "NI PXIe-5654" "channel" "").2.map Prod.fst =
      ["power"] ∧
    powerAttr.supported_models.contains "NI PXIe-5654" = false ∧
    powerAttr.supported_models.contains "all" = false := by
  refine ⟨?_, rfl, rfl⟩
  decide

/-- Claim C4 amended: the lookup returns exactly those descriptors whose subsystem
tag equals the requested tag and whose supported-models list either holds the
wildcard entry "all" or holds an entry occurring as a substring of the connected
model string; every returned descriptor is the bound copy of such an entry. -/
theorem C4_lookup_filter (registry : List (String × Attribute)) (hdl : ℕ)
    (model sub ch : String) (name : String) (a : Attribute) :
    (name, a) ∈ (monger_call registry hdl model sub ch).2 ↔
      ∃ a0, (name, a0) ∈ registry ∧ a = bindAttr a0 hdl ch ∧ sub = a0.subsystem ∧
        (a0.supported_models.contains "all" = true ∨
          ∃ m ∈ a0.supported_models, str_contains model m = true) := by
  simp only [monger_call, List.mem_map, List.mem_filter, mongerMatch_iff,
    Prod.mk.injEq]
  constructor
  · rintro ⟨⟨n0, a0⟩, ⟨hp, hsub, hsup⟩, hn, ha⟩
    subst hn
    exact ⟨a0, hp, ha.symm, hsub, hsup⟩
  · rintro ⟨a0, hp, ha, hsub, hsup⟩
    exact ⟨(name, a0), ⟨hp, hsub, hsup⟩, rfl, ha.symm⟩

theorem C4_lookup_filter_witness :
    ("power", bindAttr powerAttr 3 "") ∈
      (monger_call registryB 3 "NI PXIe-5654" "channel" "").2 := by
  exact (C4_lookup_filter registryB 3 "NI PXIe-5654" "channel" "" "power"
      (bindAttr powerAttr 3 "")).mpr
    ⟨powerAttr, by simp [registryB], rfl, rfl,
      Or.inr ⟨"565", by simp [powerAttr], by decide⟩⟩

theorem evalMatches_evalToPyVal (e f : EVal) :
    evalMatches (evalToPyVal e) f = (f == e) := by
  cases e <;> cases f <;> simp [evalMatches, evalToPyVal] <;> exact eq_comm

theorem find?_by_value_of_find?_by_name (dv : List (String × EVal)) (n : String)
    (e : EVal) (hnodup : (dv.map Prod.snd).Nodup)
    (hfind : dv.find? (fun p => p.1 == n) = some (n, e)) :
    dv.find? (fun p => evalMatches (evalToPyVal e) p.2) = some (n, e) := by
  induction dv with
  | nil => simp at hfind
  | cons hd t ih =>
    rcases hd with ⟨m, f⟩
    rw [List.map_cons, List.nodup_cons] at hnodup
    by_cases hname : (m == n) = true
    · simp only [List.find?_cons, hname] at hfind
      injection hfind with h2
      injection h2 with hm hf
      subst hm
      subst hf
      have hpos : evalMatches (evalToPyVal f) f = true := by
        rw [evalMatches_evalToPyVal]
        exact beq_self_eq_true f
      simp only [List.find?_cons, hpos]
    · rw [Bool.not_eq_true] at hname
      simp only [List.find?_cons, hname] at hfind
      have hmem : (n, e) ∈ t := List.mem_of_find?_eq_some hfind
      have hfe : (f == e) = false := by
        apply beq_eq_false_iff_ne.mpr
        intro hEq
        subst hEq
        exact hnodup.1 (List.mem_map.mpr ⟨(n, f), hmem, rfl⟩)
      have hneg : evalMatches (evalToPyVal e) f = false := by
        rw [evalMatches_evalToPyVal, hfe]
      simp only [List.find?_cons, hneg]
      exact ih hnodup.2 hfind

/-- Claim C5: for an enumerated attribute (the driver modelled as recording on set
the native value it receives and returning it on get), setting a declared symbolic
name and then getting returns that same symbolic name.  Holds whenever the
attribute's declared native values are pairwise distinct; with a duplicated native
value the Python Enum would alias the later name to the earlier member. -/
theorem C5_enum_roundtrip (a : Attribute) (st : Store)
    (dv : List (String × EVal)) (n : String) (e : EVal)
    (hdv : a.defined_values = some dv)
    (hnodup : (dv.map Prod.snd).Nodup)
    (hfind : dv.find? (fun p => p.1 == n) = some (n, e)) :
    a.value_set st (PyVal.str n) =
      Except.ok (st.set a.vi a.channel a.id (evalToPyVal e)) ∧
    a.value_get (st.set a.vi a.channel a.id (evalToPyVal e)) =
      Except.ok (PyVal.enumMember n e) := by
  constructor
  · simp [Attribute.value_set, hdv, hfind]
  · have hst : (st.set a.vi a.channel a.id (evalToPyVal e)) a.vi a.channel a.id =
        evalToPyVal e := by
      simp [Store.set]
    simp [Attribute.value_get, hdv, hst,
      find?_by_value_of_find?_by_name dv n e hnodup hfind]

theorem C5_enum_roundtrip_witness :
    modeAttr.value_set zeroStore (PyVal.str "fm") =
      Except.ok
        (zeroStore.set modeAttr.vi modeAttr.channel modeAttr.id
          (evalToPyVal (EVal.i 2))) ∧
    modeAttr.value_get
        (zeroStore.set modeAttr.vi modeAttr.channel modeAttr.id
          (evalToPyVal (EVal.i 2))) =
      Except.ok (PyVal.enumMember "fm" (EVal.i 2)) :=
  C5_enum_roundtrip modeAttr zeroStore _ "fm" (EVal.i 2) rfl (by decide) (by decide)

/-- Claim C6 fails on the code: the special translations sit in an elif chain after
the enumerated-values branch, so they do not apply "regardless of whether the
descriptor carries enumerated values".  Explicit input: a calibration-interval
descriptor carrying enumerated values, native value 1; the get returns the
enumeration member, not a duration. -/
theorem C6_counterexample :
    calEnumAttr.value_get oneStore =
      Except.ok (PyVal.enumMember "foo" (EVal.i 1)) ∧
    (calEnumAttr.value_get oneStore).map isTimedeltaB = Except.ok false :=
  ⟨rfl, rfl⟩

/-- Claim C6 amended: when the descriptor carries no enumerated values, a get of
the calibration-interval attribute whose declared type is not boolean converts the
numeric count into a duration of value/12*365 days, and a get of the
thermal-correction attribute is coerced to a true/false value even when its
declared type is not boolean; when the descriptor carries enumerated values the
enumeration translation takes precedence instead. -/
theorem C6_reserved_translations (a : Attribute) (st : Store) (q : ℚ)
    (hdv : a.defined_values = none) :
    (a.c_api_name = CAL_INTERVAL_NAME → a.c_type ≠ ViBoolean →
      pyNum (st a.vi a.channel a.id) = some q →
      a.value_get st = Except.ok (PyVal.timedelta (q / 12 * 365))) ∧
    (a.c_api_name = THERMAL_NAME →
      a.value_get st =
        Except.ok (PyVal.bool (pyTruthy (st a.vi a.channel a.id)))) := by
  constructor
  · intro hname hbool hnum
    simp [Attribute.value_get, hdv, hname, hbool, hnum]
  · intro hname
    by_cases hb : a.c_type = ViBoolean
    · simp [Attribute.value_get, hdv, hb]
    · have hx : THERMAL_NAME ≠ CAL_INTERVAL_NAME := by decide
      simp [Attribute.value_get, hdv, hb, hname, hx]

theorem C6_reserved_translations_witness :
    calAttr.value_get oneStore =
      Except.ok (PyVal.timedelta ((1 : ℚ) / 12 * 365)) ∧
    thermalAttr.value_get oneStore = Except.ok (PyVal.bool true) :=
  ⟨(C6_reserved_translations calAttr oneStore 1 rfl).1 rfl (by decide) rfl,
   (C6_reserved_translations thermalAttr oneStore 1 rfl).2 rfl⟩

theorem mem_of_mem_everyOther :
    ∀ (l : List String) (x : String), x ∈ everyOther l → x ∈ l
  | [], _, h => by simp [everyOther] at h
  | [a], x, h => by simpa [everyOther] using h
  | a :: b :: rest, x, h => by
    rw [everyOther] at h
    rcases List.mem_cons.mp h with h1 | h2
    · exact h1 ▸ List.mem_cons_self a _
    · exact List.mem_cons_of_mem a
        (List.mem_cons_of_mem b (mem_of_mem_everyOther rest x h2))

theorem mem_of_mem_pySlice2 (l : List String) (s e : ℕ) (x : String)
    (h : x ∈ pySlice2 l s e) : x ∈ l :=
  List.mem_of_mem_take (List.mem_of_mem_drop (mem_of_mem_everyOther _ x h))

theorem parseDefvals_names (tokens : List String) (i c : ℕ) (nm : String)
    (v : EVal) (h : (nm, v) ∈ parseDefvals tokens i c) :
    ∃ cn ∈ tokens, nm = derive_name cn := by
  rcases List.mem_map.mp h with ⟨p, hpz, hpe⟩
  obtain ⟨h1, -⟩ := List.of_mem_zip hpz
  exact ⟨p.1, mem_of_mem_pySlice2 tokens i _ p.1 h1,
    (congrArg Prod.fst hpe).symm⟩

theorem parseRowTail_defined_values (tokens : List String) (t0 t3 : String)
    (attr_id : ℤ) (c_type : CTy) (subsystem : String) (cnt : ℤ) (a : Attribute)
    (dv : List (String × EVal))
    (hpr : parseRowTail tokens t0 t3 attr_id c_type subsystem cnt =
      Except.ok (some a))
    (hdv : a.defined_values = some dv) :
    ∃ i c, dv = parseDefvals tokens i c := by
  simp only [parseRowTail] at hpr
  split at hpr
  · exact absurd hpr (by simp)
  · split at hpr
    · exact absurd hpr (by simp)
    · rename_i cnt2 hcnt2
      split at hpr
      · exact absurd hpr (by simp)
      · injection hpr with h1
        injection h1 with h2
        subst h2
        simp only at hdv
        by_cases hpos : cnt2 > 0
        · rw [if_pos hpos] at hdv
          split at hdv
          · exact absurd hdv (by simp)
          · injection hdv with h3
            subst h3
            exact ⟨_, _, rfl⟩
        · rw [if_neg hpos] at hdv
          simp at hdv

theorem parseRow_defined_values (tokens : List String) (a : Attribute)
    (dv : List (String × EVal)) (hpr : parseRow tokens = Except.ok (some a))
    (hdv : a.defined_values = some dv) :
    ∃ i c, dv = parseDefvals tokens i c := by
  unfold parseRow at hpr
  split at hpr
  · exact absurd hpr (by simp)
  · split at hpr
    · exact absurd hpr (by simp)
    · split at hpr
      · exact absurd hpr (by simp)
      · split at hpr
        · exact absurd hpr (by simp)
        · split at hpr
          · exact absurd hpr (by simp)
          · split at hpr
            · exact absurd hpr (by simp)
            · split at hpr
              · exact absurd hpr (by simp)
              · split at hpr
                · exact absurd hpr (by simp)
                · split at hpr
                  · exact absurd hpr (by simp)
                  · split at hpr
                    · exact absurd hpr (by simp)
                    · split at hpr
                      · exact absurd hpr (by simp)
                      · exact parseRowTail_defined_values tokens _ _ _ _ _ _
                          a dv hpr hdv

/-- Claim C7 fails on the code: the derivation of a symbolic name also removes
every occurrence of " STR" after replacing underscores with spaces, a step the
claim omits.  Explicit input: a row whose enumeration constant is
"NIRFSG_VAL_CW_STR" parses to the symbolic name "cw", while the claim's recipe
(strip prefix, underscores to spaces, lower-case) yields "cw str". -/
theorem C7_counterexample :
    parseRow rowCW = Except.ok (some rowCW_attr) ∧
    rowCW_attr.defined_values = some [("cw", EVal.i 1)] ∧
    derive_name "NIRFSG_VAL_CW_STR" = "cw" ∧
    specDeriveName "NIRFSG_VAL_CW_STR" = "cw str" ∧
    ("cw" : String) ≠ "cw str" := by
  refine ⟨rfl, rfl, rfl, rfl, ?_⟩
  decide

/-- Claim C7 amended: a row whose first field does not start with "NIRFSG", or
whose display-name field (tokens[3]) is empty, produces no descriptor; and every
symbolic name of a produced descriptor's enumerated values is derived from some
token of the row by taking the part after the last "_VAL_", replacing underscores
with spaces, removing occurrences of " STR", and lower-casing (derive_name). -/
theorem C7_row_parse (tokens : List String) :
    (∀ t0, tget tokens 0 = Except.ok t0 → pyStartsWith t0 "NIRFSG" = false →
      parseRow tokens = Except.ok none) ∧
    (∀ t0, tget tokens 0 = Except.ok t0 → pyStartsWith t0 "NIRFSG" = true →
      tget tokens 3 = Except.ok "" → parseRow tokens = Except.ok none) ∧
    (∀ a dv nm v, parseRow tokens = Except.ok (some a) →
      a.defined_values = some dv → (nm, v) ∈ dv →
      ∃ cn ∈ tokens, nm = derive_name cn) := by
  refine ⟨?_, ?_, ?_⟩
  · intro t0 h0 hsw
    simp [parseRow, h0, hsw]
  · intro t0 h0 hsw h3
    simp [parseRow, h0, hsw, h3]
  · intro a dv nm v hpr hdv hmem
    obtain ⟨i, c, rfl⟩ := parseRow_defined_values tokens a dv hpr hdv
    exact parseDefvals_names tokens i c nm v hmem

theorem C7_row_parse_witness :
    parseRow ["IVI_ATTR", "1", "ViInt32", "x", "s", "0", "", ""] =
      Except.ok none ∧
    parseRow ["NIRFSG_ATTR_X", "1", "ViInt32", "", "s", "0", "", ""] =
      Except.ok none ∧
    ∃ cn ∈ rowCW, ("cw" : String) = derive_name cn := by
  refine ⟨?_, ?_, ?_⟩
  · exact (C7_row_parse _).1 "IVI_ATTR" rfl rfl
  · exact (C7_row_parse _).2.1 "NIRFSG_ATTR_X" rfl rfl rfl
  · exact (C7_row_parse rowCW).2.2 rowCW_attr [("cw", EVal.i 1)] "cw" (EVal.i 1)
      rfl rfl (by simp)

/-- Claim C10: reading a name that is neither resolvable through the object
(instance dict or class) nor a registered driver attribute returns None rather
than raising AttributeError, and writing a name that is not a registered driver
attribute stores it as an ordinary instance attribute, leaving the driver store
untouched (no native call). -/
theorem C10_missing_name_fallbacks (o : NiObj) (st : Store) (item : String)
    (v : PyVal)
    (h1 : List.lookup item o.dict = none)
    (h2 : List.lookup item o.cls = none)
    (h3 : List.lookup item o.attrs = none) :
    niBase_getattr o st item = Except.ok PyVal.noneV ∧
    niBase_setattr o st item v =
      Except.ok ({ o with dict := dictSet o.dict item v }, st) := by
  constructor
  · unfold niBase_getattr
    rw [h1, h2, h3]
  · unfold niBase_setattr
    rw [h3]

theorem C10_missing_name_fallbacks_witness :
    niBase_getattr demoObj zeroStore "gain" = Except.ok PyVal.noneV ∧
    niBase_setattr demoObj zeroStore "gain" (PyVal.int 5) =
      Except.ok
        ({ demoObj with dict := dictSet demoObj.dict "gain" (PyVal.int 5) },
          zeroStore) :=
  C10_missing_name_fallbacks demoObj zeroStore "gain" (PyVal.int 5) rfl rfl rfl

end NiRFSG
